import Mathlib

/-!
# OR1K DAG-to-DAG instruction selector: address-mode selection and node lowering

A shallow embedding of `lib/Target/OR1K/OR1KISelDAGToDAG.cpp`:
`isIntS32Immediate`, `SelectAddrRegReg`, `SelectAddrRegImm`, `SelectAddr` and
`Select`, followed by the properties of these functions.

Conventions of the embedding.

* An `SDValue` is identified with the node it points at; the node carries the value
  type of the result that is used.
* A C++ function `bool f(..., SDValue &A, SDValue &B)` becomes a function into
  `Option`: `none` is `return false`, `some ⟨A, B⟩` is `return true` with the two
  output references bound.
* The `DEBUG(...)` statements only print and are left out.
* `uint64_t` values are natural numbers taken `% 2 ^ 64`; `int32_t` and `int64_t`
  values are integers obtained by the explicit wrapping casts `toInt32`, `toInt64`.
-/

namespace OR1K

/-! ## Data model -/

/-- Modelled from the spec: the value types (`EVT`, `MVT::i32`, ...) are declared in
LLVM headers that are not part of the source file.  The integer types a constant can
have are named; every other type is `Other` with its size in bits. -/
inductive EVT where
  | i1
  | i8
  | i16
  | i32
  | i64
  | Other (bits : Nat)
  deriving DecidableEq, Repr

/-- Size of a value type in bits. -/
def EVT.getSizeInBits : EVT → Nat
  | .i1 => 1
  | .i8 => 8
  | .i16 => 16
  | .i32 => 32
  | .i64 => 64
  | .Other bits => bits

/-- Modelled from the spec: the node kinds (`ISD::NodeType`) are declared in LLVM
headers that are not part of the source file.  The kinds the selector names or
creates are listed; every other kind is `Other` with its opcode number. -/
inductive ISD where
  | Constant
  | TargetConstant
  | FrameIndex
  | TargetFrameIndex
  | TargetExternalSymbol
  | TargetGlobalAddress
  | TargetConstantPool
  | TargetJumpTable
  | Register
  | ADD
  | OR
  | Other (opc : Nat)
  deriving DecidableEq, Repr

/-- Modelled from the spec: the node classes (`SDNode`, `ConstantSDNode`,
`FrameIndexSDNode`, ...) are declared in LLVM headers that are not part of the source
file.  A node has a kind, a value type, and the payload of its kind: a constant its
stored integer, a stack slot reference its frame index, an additive node its two
operands.  Nodes of kinds the selector does not look into carry an identifier that
stands for the rest of the node. -/
inductive SDNode where
  | Constant (VT : EVT) (Val : Nat)
  | TargetConstant (VT : EVT) (Val : Nat)
  | FrameIndex (VT : EVT) (FI : Int)
  | TargetFrameIndex (VT : EVT) (FI : Int)
  | TargetExternalSymbol (VT : EVT) (Sym : String)
  | TargetGlobalAddress (VT : EVT) (GV : Nat)
  | TargetConstantPool (VT : EVT) (CP : Nat)
  | TargetJumpTable (VT : EVT) (JTI : Int)
  | Register (VT : EVT) (Reg : Nat)
  | ADD (VT : EVT) (Op0 Op1 : SDNode)
  | OR (VT : EVT) (Op0 Op1 : SDNode)
  | Other (opc : Nat) (VT : EVT) (id : Nat)
  deriving DecidableEq, Repr

/-- A value is identified with the node that defines it. -/
abbrev SDValue := SDNode

/-- Kind of a node, `N->getOpcode()`. -/
def SDNode.getOpcode : SDNode → ISD
  | .Constant _ _ => .Constant
  | .TargetConstant _ _ => .TargetConstant
  | .FrameIndex _ _ => .FrameIndex
  | .TargetFrameIndex _ _ => .TargetFrameIndex
  | .TargetExternalSymbol _ _ => .TargetExternalSymbol
  | .TargetGlobalAddress _ _ => .TargetGlobalAddress
  | .TargetConstantPool _ _ => .TargetConstantPool
  | .TargetJumpTable _ _ => .TargetJumpTable
  | .Register _ _ => .Register
  | .ADD _ _ _ => .ADD
  | .OR _ _ _ => .OR
  | .Other opc _ _ => .Other opc

/-- Value type of a node, `N->getValueType(0)`. -/
def SDNode.getValueType : SDNode → EVT
  | .Constant VT _ => VT
  | .TargetConstant VT _ => VT
  | .FrameIndex VT _ => VT
  | .TargetFrameIndex VT _ => VT
  | .TargetExternalSymbol VT _ => VT
  | .TargetGlobalAddress VT _ => VT
  | .TargetConstantPool VT _ => VT
  | .TargetJumpTable VT _ => VT
  | .Register VT _ => VT
  | .ADD VT _ _ => VT
  | .OR VT _ _ => VT
  | .Other _ VT _ => VT

/-- Modelled from the spec: `dyn_cast<ConstantSDNode>` is declared in LLVM headers
that are not part of the source file.  The cast succeeds on the nodes that carry a
fixed-width integer, which in LLVM are the kinds `Constant` and `TargetConstant`
(`ConstantSDNode::classof`); the result is `getZExtValue()`, a `uint64_t`. -/
def SDNode.dyn_cast_ConstantSDNode : SDNode → Option Nat
  | .Constant _ Val => some (Val % 2 ^ 64)
  | .TargetConstant _ Val => some (Val % 2 ^ 64)
  | _ => none

/-- Modelled from the spec: `dyn_cast<FrameIndexSDNode>` is declared in LLVM headers
that are not part of the source file.  The cast succeeds on the nodes that carry a
frame index, which in LLVM are the kinds `FrameIndex` and `TargetFrameIndex`
(`FrameIndexSDNode::classof`); the result is `getIndex()`. -/
def SDNode.dyn_cast_FrameIndexSDNode : SDNode → Option Int
  | .FrameIndex _ FI => some FI
  | .TargetFrameIndex _ FI => some FI
  | _ => none

/-- The cast `(int32_t)x` of a `uint64_t`: keep the low 32 bits, read them signed. -/
def toInt32 (x : Nat) : Int :=
  if x % 2 ^ 32 < 2 ^ 31 then (x % 2 ^ 32 : Nat) else (x % 2 ^ 32 : Nat) - 2 ^ 32

/-- The cast `(int64_t)x` of a `uint64_t`: read the 64 bits signed. -/
def toInt64 (x : Nat) : Int :=
  if x % 2 ^ 64 < 2 ^ 63 then (x % 2 ^ 64 : Nat) else (x % 2 ^ 64 : Nat) - 2 ^ 64

/-- The implicit conversion of a signed integer argument to a `uint64_t` parameter. -/
def toUInt64 (x : Int) : Nat := (x % 2 ^ 64).toNat

/-- The cast `uint32_t Imm = x` of a `uint64_t`: keep the low 32 bits. -/
def toUInt32 (x : Nat) : Nat := x % 2 ^ 32

/-- The test `isUInt<16>(x)`. -/
def isUInt16 (x : Nat) : Bool := decide (x < 2 ^ 16)

/-- Modelled from the spec: `SelectionDAG::getTargetConstant` is declared in LLVM
headers that are not part of the source file.  It builds the target immediate of type
`VT` from a `uint64_t`, keeping the bits that the type has. -/
def getTargetConstant (Val : Nat) (VT : EVT) : SDValue :=
  .TargetConstant VT (Val % 2 ^ 64 % 2 ^ VT.getSizeInBits)

/-- Modelled from the spec: `SelectionDAG::getTargetFrameIndex` is declared in LLVM
headers that are not part of the source file.  It builds the target frame-index
operand of type `VT` for a frame index. -/
def getTargetFrameIndex (FI : Int) (VT : EVT) : SDValue :=
  .TargetFrameIndex VT FI

/-- Modelled from the spec: `SelectionDAG::getRegister` is declared in LLVM headers
that are not part of the source file.  It builds the register operand. -/
def getRegister (Reg : Nat) (VT : EVT) : SDValue :=
  .Register VT Reg

/-- Modelled from the spec: the register numbers are generated from the target
description, which is not part of the source file.  `R0` is the Zero Register. -/
def R0 : Nat := 0

/-- Modelled from the spec: the register numbers are generated from the target
description, which is not part of the source file.  `R15` is the GOT Base Register. -/
def R15 : Nat := 15

/-- Modelled from the spec: the relocation model (`Reloc::Model`) is declared in LLVM
headers that are not part of the source file.  It is `Static` or position
independent (`PIC_`). -/
inductive Reloc where
  | Static
  | PIC_
  deriving DecidableEq, Repr

/-- The part of the target machine that the selector reads: the relocation model and
the pointer type of the target lowering. -/
structure OR1KTargetMachine where
  RelocationModel : Reloc
  PointerTy : EVT
  deriving DecidableEq, Repr

/-- Outputs of `SelectAddrRegReg`, in the order of its reference parameters. -/
structure RegRegAddr where
  Base : SDValue
  Index : SDValue
  deriving DecidableEq, Repr

/-- Outputs of `SelectAddrRegImm`, in the order of its reference parameters. -/
structure RegImmAddr where
  Disp : SDValue
  Base : SDValue
  deriving DecidableEq, Repr

/-- Outputs of `SelectAddr`, in the order of the reference parameters of its
definition. -/
structure Addr where
  Offset : SDValue
  Base : SDValue
  deriving DecidableEq, Repr

/-! ## The selector functions -/

/-- The function `isIntS32Immediate(SDNode *N, int32_t &Imm)`: `some Imm` when it
returns true. -/
def isIntS32Immediate (N : SDNode) : Option Int :=
  match N with
  | .Constant VT Val =>
    let Imm := toInt32 (Val % 2 ^ 64)
    if VT = .i32 then
      if Imm = toInt32 (Val % 2 ^ 64) then some Imm else none
    else
      if Imm = toInt64 (Val % 2 ^ 64) then some Imm else none
  | _ => none

/-- The function `OR1KDAGToDAGISel::SelectAddrRegReg`. -/
def SelectAddrRegReg (_Op : SDNode) (N : SDValue) : Option RegRegAddr :=
  if N.getOpcode = .FrameIndex then none
  else if N.getOpcode = .TargetExternalSymbol ∨ N.getOpcode = .TargetGlobalAddress then
    none
  else
    match N with
    | .ADD _ Op0 Op1 | .OR _ Op0 Op1 =>
      if (isIntS32Immediate Op1).isSome then none
      else if Op0.getOpcode = .TargetJumpTable ∨ Op1.getOpcode = .TargetJumpTable then
        none
      else some ⟨Op1, Op0⟩
    | _ => none

/-- The last statements of `SelectAddrRegImm`: the `[r+0]` form. -/
def SelectAddrRegImm.fallback (TM : OR1KTargetMachine) (N : SDValue) : RegImmAddr :=
  let Disp := getTargetConstant 0 TM.PointerTy
  match N.dyn_cast_FrameIndexSDNode with
  | some FI => ⟨Disp, getTargetFrameIndex FI N.getValueType⟩
  | none => ⟨Disp, N⟩

/-- The function `OR1KDAGToDAGISel::SelectAddrRegImm`. -/
def SelectAddrRegImm (TM : OR1KTargetMachine) (Op : SDNode) (N : SDValue) :
    Option RegImmAddr :=
  if (SelectAddrRegReg Op N).isSome then none
  else
    match N with
    | .ADD _ Op0 Op1 | .OR _ Op0 Op1 =>
      match isIntS32Immediate Op1 with
      | some imm =>
        let Disp := getTargetConstant (toUInt64 imm) .i32
        match Op0.dyn_cast_FrameIndexSDNode with
        | some FI => some ⟨Disp, getTargetFrameIndex FI N.getValueType⟩
        | none => some ⟨Disp, Op0⟩
      | none => some (SelectAddrRegImm.fallback TM N)
    | _ =>
      match N.dyn_cast_ConstantSDNode with
      | some Z =>
        let Imm := toUInt32 Z
        some ⟨getTargetConstant Imm N.getValueType, getRegister R0 N.getValueType⟩
      | none => some (SelectAddrRegImm.fallback TM N)

/-- The `ISD::ADD` rule of `SelectAddr`: `some` when the rule returns. -/
def SelectAddr.addRule (Addr : SDValue) : Option OR1K.Addr :=
  match Addr with
  | .ADD _ Op0 Op1 =>
    match Op1.dyn_cast_ConstantSDNode with
    | some Z =>
      if isUInt16 Z then
        let Base :=
          match Op0.dyn_cast_FrameIndexSDNode with
          | some FI => getTargetFrameIndex FI .i32
          | none => Op0
        some ⟨getTargetConstant Z .i32, Base⟩
      else none
    | none => none
  | _ => none

/-- The statements of `SelectAddr` after the relocation-model test: the `ISD::ADD`
rule, then the final `Base = Addr`, `Offset = 0`. -/
def SelectAddr.rest (Addr : SDValue) : Option OR1K.Addr :=
  match SelectAddr.addRule Addr with
  | some r => some r
  | none => some ⟨getTargetConstant 0 .i32, Addr⟩

/-- The function `OR1KDAGToDAGISel::SelectAddr`. -/
def SelectAddr (TM : OR1KTargetMachine) (_Op : SDNode) (Addr : SDValue) :
    Option OR1K.Addr :=
  match Addr.dyn_cast_FrameIndexSDNode with
  | some FI => some ⟨getTargetConstant 0 .i32, getTargetFrameIndex FI .i32⟩
  | none =>
    if TM.RelocationModel = .PIC_ then
      if Addr.getOpcode = .TargetGlobalAddress ∨ Addr.getOpcode = .TargetConstantPool ∨
          Addr.getOpcode = .TargetJumpTable then
        some ⟨Addr, getRegister R15 .i32⟩
      else SelectAddr.rest Addr
    else
      if Addr.getOpcode = .TargetExternalSymbol ∨
          Addr.getOpcode = .TargetGlobalAddress then
        none
      else SelectAddr.rest Addr

/-! ## Custom node lowering -/

/-- Modelled from the spec: the machine opcodes (`OR1K::ADDI`, ...) are generated from
the target description, which is not part of the source file.  `ADDI` is the
add-immediate instruction; every other instruction is `Other` with its number. -/
inductive MachineOpcode where
  | ADDI
  | Other (opc : Nat)
  deriving DecidableEq, Repr

/-- Modelled from the spec: `SDNode::isMachineOpcode` and `SDNode::hasOneUse` are
declared in LLVM headers that are not part of the source file.  They are taken as
given: whether a node is already machine-form, and whether it has exactly one use in
the graph. -/
structure SelectionDAG where
  isMachineOpcode : SDNode → Bool
  hasOneUse : SDNode → Bool

/-- What `Select` hands back to the driver: `NULL` (no replacement, the node is kept),
the node morphed in place by `SelectNodeTo`, a fresh node made by `getMachineNode`
(the original node is not touched), or the node returned by `SelectCode`. -/
inductive Selected where
  | NULL
  | SelectNodeTo (Node : SDNode) (MachineOpc : MachineOpcode) (VT : EVT) (Op1 Op2 : SDValue)
  | getMachineNode (MachineOpc : MachineOpcode) (VT : EVT) (Op1 Op2 : SDValue)
  | ResNode (Res : SDNode)
  deriving DecidableEq, Repr

/-- Modelled from the spec: `SelectCode` is generated from the target description
(`OR1KGenDAGISel.inc`), which is not part of the source file.  The Pattern Matcher is
a table `Matcher` from node to rewrite; when it reports no match for the node, that is
a fatal failure that aborts with a diagnostic identifying the offending node, here
`Except.error Node`. -/
def SelectCode (Matcher : SDNode → Option SDNode) (Node : SDNode) :
    Except SDNode Selected :=
  match Matcher Node with
  | some Res => .ok (.ResNode Res)
  | none => .error Node

/-- The function `OR1KDAGToDAGISel::Select`. -/
def Select (CurDAG : SelectionDAG) (Matcher : SDNode → Option SDNode) (Node : SDNode) :
    Except SDNode Selected :=
  if CurDAG.isMachineOpcode Node then .ok .NULL
  else
    match Node with
    | .FrameIndex _ FI =>
      let imm := getTargetConstant 0 .i32
      let VT := Node.getValueType
      let TFI := getTargetFrameIndex FI VT
      let Opc := MachineOpcode.ADDI
      if CurDAG.hasOneUse Node then .ok (.SelectNodeTo Node Opc VT TFI imm)
      else .ok (.getMachineNode Opc VT TFI imm)
    | _ => SelectCode Matcher Node

/-! ## Auxiliary facts -/

/-- Only a node of kind `Constant` can be a signed 32-bit immediate. -/
theorem isIntS32Immediate_of_not_Constant (N : SDNode) (h : N.getOpcode ≠ .Constant) :
    isIntS32Immediate N = none := by
  cases N <;> simp_all [isIntS32Immediate, SDNode.getOpcode]

/-- A constant of type `i32` always is a signed 32-bit immediate. -/
theorem isIntS32Immediate_i32 (Val : Nat) :
    isIntS32Immediate (.Constant .i32 Val) = some (toInt32 (Val % 2 ^ 64)) := by
  simp [isIntS32Immediate]

/-- The target immediate of type `i32` built from a signed integer holds its low 32
bits. -/
theorem getTargetConstant_toUInt64 (c : Int) :
    getTargetConstant (toUInt64 c) .i32 = .TargetConstant .i32 (c % 2 ^ 32).toNat := by
  simp only [getTargetConstant, toUInt64, EVT.getSizeInBits, SDNode.TargetConstant.injEq,
    true_and]
  omega

/-- The register+register selector on an additive node, as a function of its two
operands. -/
theorem SelectAddrRegReg_ADD (Op : SDNode) (VT : EVT) (A B : SDNode) :
    SelectAddrRegReg Op (.ADD VT A B) =
      if (isIntS32Immediate B).isSome then none
      else if A.getOpcode = .TargetJumpTable ∨ B.getOpcode = .TargetJumpTable then none
      else some ⟨B, A⟩ := by
  simp [SelectAddrRegReg, SDNode.getOpcode]

/-- The register+register selector on a bitwise-or node, as a function of its two
operands. -/
theorem SelectAddrRegReg_OR (Op : SDNode) (VT : EVT) (A B : SDNode) :
    SelectAddrRegReg Op (.OR VT A B) =
      if (isIntS32Immediate B).isSome then none
      else if A.getOpcode = .TargetJumpTable ∨ B.getOpcode = .TargetJumpTable then none
      else some ⟨B, A⟩ := by
  simp [SelectAddrRegReg, SDNode.getOpcode]

/-- The register+register selector fails on every node that is not additive. -/
theorem SelectAddrRegReg_not_additive (Op N : SDNode) (hA : N.getOpcode ≠ .ADD)
    (hO : N.getOpcode ≠ .OR) : SelectAddrRegReg Op N = none := by
  cases N <;> simp_all [SelectAddrRegReg, SDNode.getOpcode]

/-! ## Register+register selection -/

/-- C1: on `Add(A, B)` and on `Or(A, B)` whose operands are plain registers,
`SelectAddrRegReg` succeeds with `Base` bound to the second operand `B` and `Index`
to the first operand `A`.  Of "plain register" the code needs only that `B` is not a
`Constant` and that neither operand is a jump-table reference. -/
theorem SelectAddrRegReg_plain_operands (Op : SDNode) (VT : EVT) (A B : SDNode)
    (hB : B.getOpcode ≠ .Constant) (hAJ : A.getOpcode ≠ .TargetJumpTable)
    (hBJ : B.getOpcode ≠ .TargetJumpTable) :
    SelectAddrRegReg Op (.ADD VT A B) = some ⟨B, A⟩ ∧
      SelectAddrRegReg Op (.OR VT A B) = some ⟨B, A⟩ := by
  have hImm := isIntS32Immediate_of_not_Constant B hB
  simp [SelectAddrRegReg_ADD, SelectAddrRegReg_OR, hImm, hAJ, hBJ]

/-- Witness of C1 at `Add(r3, r4)` and `Or(r3, r4)`. -/
theorem SelectAddrRegReg_plain_operands_witness :
    SelectAddrRegReg (.Other 0 .i32 0) (.ADD .i32 (.Register .i32 3) (.Register .i32 4)) =
        some ⟨.Register .i32 4, .Register .i32 3⟩ ∧
      SelectAddrRegReg (.Other 0 .i32 0) (.OR .i32 (.Register .i32 3) (.Register .i32 4)) =
        some ⟨.Register .i32 4, .Register .i32 3⟩ :=
  SelectAddrRegReg_plain_operands (.Other 0 .i32 0) .i32 (.Register .i32 3)
    (.Register .i32 4) (by decide) (by decide) (by decide)

/-- C2 fails as stated: `SelectAddrRegReg` succeeds on `Add(StackSlotRef(1), r3)`,
whose first operand is a Stack Slot Reference, and on `Add(r3, GlobalAddress(7))` and
`Add(ExternalSymbol("f"), r3)`, which have a symbol reference as an operand. -/
theorem SelectAddrRegReg_stack_slot_or_symbol_operand :
    SelectAddrRegReg (.Other 0 .i32 0) (.ADD .i32 (.FrameIndex .i32 1) (.Register .i32 3)) =
        some ⟨.Register .i32 3, .FrameIndex .i32 1⟩ ∧
      SelectAddrRegReg (.Other 0 .i32 0)
          (.ADD .i32 (.Register .i32 3) (.TargetGlobalAddress .i32 7)) =
        some ⟨.TargetGlobalAddress .i32 7, .Register .i32 3⟩ ∧
      SelectAddrRegReg (.Other 0 .i32 0)
          (.ADD .i32 (.TargetExternalSymbol .i32 "f") (.Register .i32 3)) =
        some ⟨.Register .i32 3, .TargetExternalSymbol .i32 "f"⟩ := by
  refine ⟨?_, ?_, ?_⟩ <;> rfl

/-- C2, amended: when `SelectAddrRegReg` succeeds on a node, the node itself is
neither a Stack Slot Reference nor an External Symbol or Global Address reference.
These three kinds are tested on the node, not on its operands. -/
theorem SelectAddrRegReg_node_kind (Op N : SDNode)
    (h : (SelectAddrRegReg Op N).isSome) :
    N.getOpcode ≠ .FrameIndex ∧ N.getOpcode ≠ .TargetExternalSymbol ∧
      N.getOpcode ≠ .TargetGlobalAddress := by
  refine ⟨?_, ?_, ?_⟩ <;> intro hk <;> simp [SelectAddrRegReg, hk] at h

/-- Witness of the amended C2 at `Add(StackSlotRef(1), r3)`. -/
theorem SelectAddrRegReg_node_kind_witness :
    (SDNode.ADD .i32 (.FrameIndex .i32 1) (.Register .i32 3)).getOpcode ≠ .FrameIndex ∧
      (SDNode.ADD .i32 (.FrameIndex .i32 1) (.Register .i32 3)).getOpcode ≠
        .TargetExternalSymbol ∧
      (SDNode.ADD .i32 (.FrameIndex .i32 1) (.Register .i32 3)).getOpcode ≠
        .TargetGlobalAddress :=
  SelectAddrRegReg_node_kind (.Other 0 .i32 0)
    (.ADD .i32 (.FrameIndex .i32 1) (.Register .i32 3)) (by decide)

/-- C3 fails as stated: `SelectAddrRegReg` succeeds on `Add(Constant(5), r3)`, binding
`Index` to a Constant, and on `Add(r3, Constant(2^32))` with the constant of width 64,
binding `Base` to a Constant. -/
theorem SelectAddrRegReg_constant_operand :
    SelectAddrRegReg (.Other 0 .i32 0) (.ADD .i32 (.Constant .i32 5) (.Register .i32 3)) =
        some ⟨.Register .i32 3, .Constant .i32 5⟩ ∧
      SelectAddrRegReg (.Other 0 .i64 0)
          (.ADD .i64 (.Register .i64 3) (.Constant .i64 4294967296)) =
        some ⟨.Constant .i64 4294967296, .Register .i64 3⟩ := by
  refine ⟨?_, ?_⟩ <;> decide

/-- C3, amended: when `SelectAddrRegReg` succeeds on a node, the node is `Add` or `Or`
of `Index` and `Base` in this order, and the second operand, bound to `Base`, does not
satisfy `isIntS32Immediate`; in particular it is not a Constant of width 32, whatever
its value.  The first operand is not tested. -/
theorem SelectAddrRegReg_base_not_immediate (Op N : SDNode) (r : RegRegAddr)
    (h : SelectAddrRegReg Op N = some r) :
    (N = .ADD N.getValueType r.Index r.Base ∨ N = .OR N.getValueType r.Index r.Base) ∧
      isIntS32Immediate r.Base = none ∧ ∀ Val, r.Base ≠ .Constant .i32 Val := by
  have key : (N = .ADD N.getValueType r.Index r.Base ∨
      N = .OR N.getValueType r.Index r.Base) ∧ isIntS32Immediate r.Base = none := by
    cases N with
    | ADD VT A B =>
      rw [SelectAddrRegReg_ADD] at h
      split at h
      · simp at h
      · split at h
        · simp at h
        · cases h
          simp_all [SDNode.getValueType]
    | OR VT A B =>
      rw [SelectAddrRegReg_OR] at h
      split at h
      · simp at h
      · split at h
        · simp at h
        · cases h
          simp_all [SDNode.getValueType]
    | _ => simp [SelectAddrRegReg, SDNode.getOpcode] at h
  refine ⟨key.1, key.2, ?_⟩
  intro Val hVal
  have h2 := key.2
  rw [hVal, isIntS32Immediate_i32] at h2
  simp at h2

/-- Witness of the amended C3 at `Add(Constant(5), r3)`. -/
theorem SelectAddrRegReg_base_not_immediate_witness :
    isIntS32Immediate (.Register .i32 3) = none ∧
      ∀ Val, SDNode.Register .i32 3 ≠ .Constant .i32 Val :=
  (SelectAddrRegReg_base_not_immediate (.Other 0 .i32 0)
    (.ADD .i32 (.Constant .i32 5) (.Register .i32 3))
    ⟨.Register .i32 3, .Constant .i32 5⟩ (by decide)).2

/-! ## Register+immediate selection -/

/-- Once `SelectAddrRegReg` has failed, `SelectAddrRegImm` returns a pair. -/
theorem SelectAddrRegImm_isSome_of_RegReg_none (TM : OR1KTargetMachine) (Op N : SDNode)
    (h : SelectAddrRegReg Op N = none) : (SelectAddrRegImm TM Op N).isSome := by
  unfold SelectAddrRegImm
  simp only [h]
  cases N with
  | ADD VT A B =>
    cases hB : isIntS32Immediate B with
    | none => simp [hB]
    | some c => cases hA : A.dyn_cast_FrameIndexSDNode <;> simp [hB, hA]
  | OR VT A B =>
    cases hB : isIntS32Immediate B with
    | none => simp [hB]
    | some c => cases hA : A.dyn_cast_FrameIndexSDNode <;> simp [hB, hA]
  | _ => simp [SDNode.dyn_cast_ConstantSDNode]

/-- C4: `SelectAddrRegImm` reports no match exactly when `SelectAddrRegReg` succeeds
on the same node, and returns a pair exactly when `SelectAddrRegReg` fails; so exactly
one of the two selectors matches any given node. -/
theorem SelectAddrRegImm_none_iff_RegReg (TM : OR1KTargetMachine) (Op N : SDNode) :
    (SelectAddrRegImm TM Op N = none ↔ (SelectAddrRegReg Op N).isSome) ∧
      ((SelectAddrRegImm TM Op N).isSome ↔ SelectAddrRegReg Op N = none) ∧
      (SelectAddrRegImm TM Op N).isSome = !(SelectAddrRegReg Op N).isSome := by
  cases h : SelectAddrRegReg Op N with
  | none =>
    have h2 := SelectAddrRegImm_isSome_of_RegReg_none TM Op N h
    refine ⟨?_, ?_, ?_⟩
    · constructor
      · intro h3
        rw [h3] at h2
        simp at h2
      · intro h3
        simp at h3
    · simp [h2]
    · simp [h2]
  | some r =>
    have h2 : SelectAddrRegImm TM Op N = none := by
      unfold SelectAddrRegImm
      simp [h]
    simp [h2]

/-- C5: on an additive node (`Add` or `Or`) with operands `(X, C)` whose second operand
satisfies `isIntS32Immediate` with value `c`, `SelectAddrRegReg` fails and
`SelectAddrRegImm` returns `Disp` = the target immediate of type `i32` holding `c`
(its 32-bit two's-complement pattern) and `Base` = `X`, except that for a frame-index
node `X` with index `k` the `Base` is the target frame-index operand for `k`, of the
type of the additive node. -/
theorem SelectAddrRegImm_immediate_operand (TM : OR1KTargetMachine) (Op : SDNode)
    (VT : EVT) (X C : SDNode) (c : Int) (h : isIntS32Immediate C = some c) :
    (SelectAddrRegReg Op (.ADD VT X C) = none ∧
      SelectAddrRegImm TM Op (.ADD VT X C) =
        some ⟨.TargetConstant .i32 (c % 2 ^ 32).toNat,
          match X with
          | .FrameIndex _ k => .TargetFrameIndex VT k
          | .TargetFrameIndex _ k => .TargetFrameIndex VT k
          | _ => X⟩) ∧
    (SelectAddrRegReg Op (.OR VT X C) = none ∧
      SelectAddrRegImm TM Op (.OR VT X C) =
        some ⟨.TargetConstant .i32 (c % 2 ^ 32).toNat,
          match X with
          | .FrameIndex _ k => .TargetFrameIndex VT k
          | .TargetFrameIndex _ k => .TargetFrameIndex VT k
          | _ => X⟩) := by
  have hA : SelectAddrRegReg Op (.ADD VT X C) = none := by
    simp [SelectAddrRegReg_ADD, h]
  have hO : SelectAddrRegReg Op (.OR VT X C) = none := by
    simp [SelectAddrRegReg_OR, h]
  refine ⟨⟨hA, ?_⟩, ⟨hO, ?_⟩⟩
  · unfold SelectAddrRegImm
    simp only [hA, h, getTargetConstant_toUInt64]
    cases X <;>
      simp [SDNode.dyn_cast_FrameIndexSDNode, getTargetFrameIndex, SDNode.getValueType]
  · unfold SelectAddrRegImm
    simp only [hO, h, getTargetConstant_toUInt64]
    cases X <;>
      simp [SDNode.dyn_cast_FrameIndexSDNode, getTargetFrameIndex, SDNode.getValueType]

/-- Witness of C5 at `(StackSlotRef(2), Constant(2^32 - 4))`, the immediate `-4`. -/
theorem SelectAddrRegImm_immediate_operand_witness :
    (SelectAddrRegReg (.Other 0 .i32 0)
        (.ADD .i32 (.FrameIndex .i32 2) (.Constant .i32 4294967292)) = none ∧
      SelectAddrRegImm ⟨.Static, .i32⟩ (.Other 0 .i32 0)
        (.ADD .i32 (.FrameIndex .i32 2) (.Constant .i32 4294967292)) =
        some ⟨.TargetConstant .i32 4294967292, .TargetFrameIndex .i32 2⟩) ∧
    (SelectAddrRegReg (.Other 0 .i32 0)
        (.OR .i32 (.FrameIndex .i32 2) (.Constant .i32 4294967292)) = none ∧
      SelectAddrRegImm ⟨.Static, .i32⟩ (.Other 0 .i32 0)
        (.OR .i32 (.FrameIndex .i32 2) (.Constant .i32 4294967292)) =
        some ⟨.TargetConstant .i32 4294967292, .TargetFrameIndex .i32 2⟩) :=
  by
    simpa using SelectAddrRegImm_immediate_operand ⟨.Static, .i32⟩ (.Other 0 .i32 0) .i32
      (.FrameIndex .i32 2) (.Constant .i32 4294967292) (-4) (by decide)

/-! ## Load/store address selection -/

/-- On a node that is neither a frame index nor a symbol, constant-pool or jump-table
reference, `SelectAddr` runs the `ISD::ADD` rule and the final fallback, whatever the
relocation model. -/
theorem SelectAddr_eq_rest (TM : OR1KTargetMachine) (Op N : SDNode)
    (hF : N.dyn_cast_FrameIndexSDNode = none)
    (h1 : N.getOpcode ≠ .TargetGlobalAddress) (h2 : N.getOpcode ≠ .TargetConstantPool)
    (h3 : N.getOpcode ≠ .TargetJumpTable) (h4 : N.getOpcode ≠ .TargetExternalSymbol) :
    SelectAddr TM Op N = SelectAddr.rest N := by
  unfold SelectAddr
  simp [hF, h1, h2, h3, h4]

/-- C6: for every relocation model and every `Add(X, C)` with `C` a Constant of
unsigned value `c`: if `c ≤ 65535`, `SelectAddr` succeeds with `Offset` = the target
immediate `c` and `Base` = `X` (the `i32` target frame-index operand for `k` when `X`
is a frame-index node with index `k`); if `c ≥ 65536`, it succeeds with `Offset` = 0
and `Base` = the whole `Add(X, C)` node. -/
theorem SelectAddr_ADD_Constant (TM : OR1KTargetMachine) (Op : SDNode) (VT CVT : EVT)
    (X : SDNode) (c : Nat) (hc : c < 2 ^ 64) :
    (c ≤ 65535 →
      SelectAddr TM Op (.ADD VT X (.Constant CVT c)) =
        some ⟨.TargetConstant .i32 c,
          match X with
          | .FrameIndex _ k => .TargetFrameIndex .i32 k
          | .TargetFrameIndex _ k => .TargetFrameIndex .i32 k
          | _ => X⟩) ∧
    (65536 ≤ c →
      SelectAddr TM Op (.ADD VT X (.Constant CVT c)) =
        some ⟨.TargetConstant .i32 0, .ADD VT X (.Constant CVT c)⟩) := by
  have hrest : SelectAddr TM Op (.ADD VT X (.Constant CVT c)) =
      SelectAddr.rest (.ADD VT X (.Constant CVT c)) := by
    apply SelectAddr_eq_rest <;> simp [SDNode.dyn_cast_FrameIndexSDNode, SDNode.getOpcode]
  have hmod : c % 2 ^ 64 = c := Nat.mod_eq_of_lt hc
  rw [hrest]
  constructor
  · intro hle
    have h16 : c < 2 ^ 16 := by omega
    have h32 : c % 2 ^ 32 = c := Nat.mod_eq_of_lt (by omega)
    unfold SelectAddr.rest SelectAddr.addRule
    simp only [SDNode.dyn_cast_ConstantSDNode, hmod, isUInt16, h16, decide_True, if_true,
      getTargetConstant, EVT.getSizeInBits, h32]
    cases X <;> simp [SDNode.dyn_cast_FrameIndexSDNode, getTargetFrameIndex]
  · intro hge
    have h16 : ¬ c < 2 ^ 16 := by omega
    unfold SelectAddr.rest SelectAddr.addRule
    simp only [SDNode.dyn_cast_ConstantSDNode, hmod, isUInt16, h16, decide_False,
      Bool.false_eq_true, if_false]
    simp [getTargetConstant]

/-- Witness of C6 at the boundary: `c = 65535` matches the rule and `c = 65536` falls
through. -/
theorem SelectAddr_ADD_Constant_witness :
    SelectAddr ⟨.Static, .i32⟩ (.Other 0 .i32 0)
        (.ADD .i32 (.Register .i32 3) (.Constant .i32 65535)) =
      some ⟨.TargetConstant .i32 65535, .Register .i32 3⟩ ∧
    SelectAddr ⟨.Static, .i32⟩ (.Other 0 .i32 0)
        (.ADD .i32 (.Register .i32 3) (.Constant .i32 65536)) =
      some ⟨.TargetConstant .i32 0, .ADD .i32 (.Register .i32 3) (.Constant .i32 65536)⟩ :=
  ⟨(SelectAddr_ADD_Constant ⟨.Static, .i32⟩ (.Other 0 .i32 0) .i32 .i32 (.Register .i32 3)
      65535 (by decide)).1 (by decide),
    (SelectAddr_ADD_Constant ⟨.Static, .i32⟩ (.Other 0 .i32 0) .i32 .i32 (.Register .i32 3)
      65536 (by decide)).2 (by decide)⟩

/-- C7 fails as stated: on `Or(r3, Constant(4))` `SelectAddr` does not return
`Base = r3`, `Offset = 4` as it does for `Add(r3, Constant(4))`; it returns the whole
`Or` node as `Base` and `Offset = 0`. -/
theorem SelectAddr_OR_Constant_not_split :
    SelectAddr ⟨.Static, .i32⟩ (.Other 0 .i32 0)
        (.OR .i32 (.Register .i32 3) (.Constant .i32 4)) =
      some ⟨.TargetConstant .i32 0, .OR .i32 (.Register .i32 3) (.Constant .i32 4)⟩ ∧
    SelectAddr ⟨.Static, .i32⟩ (.Other 0 .i32 0)
        (.OR .i32 (.Register .i32 3) (.Constant .i32 4)) ≠
      some ⟨.TargetConstant .i32 4, .Register .i32 3⟩ ∧
    SelectAddr ⟨.Static, .i32⟩ (.Other 0 .i32 0)
        (.ADD .i32 (.Register .i32 3) (.Constant .i32 4)) =
      some ⟨.TargetConstant .i32 4, .Register .i32 3⟩ := by
  refine ⟨?_, ?_, ?_⟩ <;> decide

/-- C7, amended: the reg+imm rule of `SelectAddr` applies to arithmetic `Add` only.
On every `Or(A, B)` node, whatever its operands and the relocation model, `SelectAddr`
returns `Base` = the whole `Or` node and `Offset` = the target immediate 0. -/
theorem SelectAddr_OR (TM : OR1KTargetMachine) (Op : SDNode) (VT : EVT) (A B : SDNode) :
    SelectAddr TM Op (.OR VT A B) = some ⟨.TargetConstant .i32 0, .OR VT A B⟩ := by
  have hrest : SelectAddr TM Op (.OR VT A B) = SelectAddr.rest (.OR VT A B) := by
    apply SelectAddr_eq_rest <;> simp [SDNode.dyn_cast_FrameIndexSDNode, SDNode.getOpcode]
  rw [hrest]
  simp [SelectAddr.rest, SelectAddr.addRule, getTargetConstant]

/-- The statements of `SelectAddr` after the relocation-model test always return a
pair. -/
theorem SelectAddr_rest_isSome (N : SDNode) : (SelectAddr.rest N).isSome := by
  unfold SelectAddr.rest
  split <;> simp

/-- C8: `SelectAddr` returns no match exactly when the relocation model is `Static`
and the node is an External Symbol or Global Address reference; in every other case it
returns a pair. -/
theorem SelectAddr_none_iff (TM : OR1KTargetMachine) (Op N : SDNode) :
    (SelectAddr TM Op N = none ↔
      TM.RelocationModel = .Static ∧
        (N.getOpcode = .TargetExternalSymbol ∨ N.getOpcode = .TargetGlobalAddress)) ∧
    ((SelectAddr TM Op N).isSome ↔
      ¬ (TM.RelocationModel = .Static ∧
        (N.getOpcode = .TargetExternalSymbol ∨ N.getOpcode = .TargetGlobalAddress))) := by
  have key : SelectAddr TM Op N = none ↔
      TM.RelocationModel = .Static ∧
        (N.getOpcode = .TargetExternalSymbol ∨ N.getOpcode = .TargetGlobalAddress) := by
    have hr := SelectAddr_rest_isSome N
    have hr2 : SelectAddr.rest N ≠ none := by
      intro h0
      rw [h0] at hr
      simp at hr
    obtain ⟨RM, PT⟩ := TM
    cases RM <;> cases N <;>
      simp_all [SelectAddr, SDNode.dyn_cast_FrameIndexSDNode, SDNode.getOpcode]
  refine ⟨key, ?_⟩
  rw [← key]
  cases SelectAddr TM Op N <;> simp

/-- C9: for every frame index `k`, value type and relocation model,
`SelectAddr` on `StackSlotRef(k)` succeeds with `Offset` = the target immediate 0 and
`Base` = the target frame-index operand for `k`. -/
theorem SelectAddr_FrameIndex (TM : OR1KTargetMachine) (Op : SDNode) (VT : EVT) (k : Int) :
    SelectAddr TM Op (.FrameIndex VT k) =
      some ⟨.TargetConstant .i32 0, .TargetFrameIndex .i32 k⟩ := by
  simp [SelectAddr, SDNode.dyn_cast_FrameIndexSDNode, getTargetConstant,
    getTargetFrameIndex]

/-- C10: under the position-independent relocation model, on every node that is a
target-form Global Address, Constant-Pool or Jump-Table reference, `SelectAddr`
succeeds with `Base` = the GOT Base Register `R15` and `Offset` = the node itself. -/
theorem SelectAddr_PIC (TM : OR1KTargetMachine) (Op N : SDNode)
    (hPIC : TM.RelocationModel = .PIC_)
    (hN : N.getOpcode = .TargetGlobalAddress ∨ N.getOpcode = .TargetConstantPool ∨
      N.getOpcode = .TargetJumpTable) :
    SelectAddr TM Op N = some ⟨N, .Register .i32 R15⟩ := by
  cases N <;>
    simp_all [SelectAddr, SDNode.dyn_cast_FrameIndexSDNode, SDNode.getOpcode, getRegister]

/-- Witness of C10 at `GlobalAddress(7)`. -/
theorem SelectAddr_PIC_witness :
    SelectAddr ⟨.PIC_, .i32⟩ (.Other 0 .i32 0) (.TargetGlobalAddress .i32 7) =
      some ⟨.TargetGlobalAddress .i32 7, .Register .i32 15⟩ :=
  SelectAddr_PIC ⟨.PIC_, .i32⟩ (.Other 0 .i32 0) (.TargetGlobalAddress .i32 7) rfl
    (Or.inl rfl)

/-! ## The signed 32-bit immediate test -/

/-- C11: for a Constant of declared width 64 with stored value `v`,
`isIntS32Immediate` succeeds exactly when truncating `v` to 32 bits and sign-extending
the result back to 64 bits yields `v`; it then returns that 32-bit signed truncation,
and otherwise returns nothing.  The round trip holds exactly for `v < 2^31` and for
`v ≥ 2^64 - 2^31`. -/
theorem isIntS32Immediate_i64 (v : Nat) (hv : v < 2 ^ 64) :
    isIntS32Immediate (.Constant .i64 v) =
        (if (if v % 2 ^ 32 < 2 ^ 31 then v % 2 ^ 32 else v % 2 ^ 32 + (2 ^ 64 - 2 ^ 32)) = v
          then some (if v % 2 ^ 32 < 2 ^ 31 then ((v % 2 ^ 32 : Nat) : Int)
            else ((v % 2 ^ 32 : Nat) : Int) - 2 ^ 32)
          else none) ∧
      ((isIntS32Immediate (.Constant .i64 v)).isSome ↔ v < 2 ^ 31 ∨ 2 ^ 64 - 2 ^ 31 ≤ v) := by
  have hmod : v % 2 ^ 64 = v := Nat.mod_eq_of_lt hv
  have hne : ¬ (EVT.i64 = EVT.i32) := by decide
  have hform : isIntS32Immediate (.Constant .i64 v) =
      if toInt32 v = toInt64 v then some (toInt32 v) else none := by
    simp only [isIntS32Immediate, hmod, hne, if_false]
  have h32 : toInt32 v = if v % 2 ^ 32 < 2 ^ 31 then ((v % 2 ^ 32 : Nat) : Int)
      else ((v % 2 ^ 32 : Nat) : Int) - 2 ^ 32 := by
    simp [toInt32]
  have hiff : toInt32 v = toInt64 v ↔
      (if v % 2 ^ 32 < 2 ^ 31 then v % 2 ^ 32 else v % 2 ^ 32 + (2 ^ 64 - 2 ^ 32)) = v := by
    unfold toInt32 toInt64
    rw [hmod]
    split <;> split <;> omega
  have hrange : (if v % 2 ^ 32 < 2 ^ 31 then v % 2 ^ 32 else v % 2 ^ 32 + (2 ^ 64 - 2 ^ 32)) = v ↔
      v < 2 ^ 31 ∨ 2 ^ 64 - 2 ^ 31 ≤ v := by
    split <;> omega
  constructor
  · rw [hform, ← h32]
    by_cases h : toInt32 v = toInt64 v
    · rw [if_pos h, if_pos (hiff.mp h)]
    · rw [if_neg h, if_neg (fun h2 => h (hiff.mpr h2))]
  · rw [hform, ← hrange, ← hiff]
    by_cases h : toInt32 v = toInt64 v <;> simp [h]

/-- Witness of C11 at `v = 2^64 - 4`, the immediate `-4`. -/
theorem isIntS32Immediate_i64_witness :
    isIntS32Immediate (.Constant .i64 18446744073709551612) = some (-4) := by
  simpa using (isIntS32Immediate_i64 18446744073709551612 (by decide)).1

/-- C12: for every 32-bit value `v`, `isIntS32Immediate` on a Constant of declared
width 32 holding `v` succeeds and returns `v` read as a signed 32-bit integer, which
has the same 32-bit pattern as `v`. -/
theorem isIntS32Immediate_Constant_i32 (v : Nat) (hv : v < 2 ^ 32) :
    isIntS32Immediate (.Constant .i32 v) =
        some (if v < 2 ^ 31 then (v : Int) else (v : Int) - 2 ^ 32) ∧
      ((if v < 2 ^ 31 then (v : Int) else (v : Int) - 2 ^ 32) % 2 ^ 32).toNat = v := by
  have hmod : v % 2 ^ 64 = v := Nat.mod_eq_of_lt (by omega)
  have hmod32 : v % 2 ^ 32 = v := Nat.mod_eq_of_lt hv
  constructor
  · simp only [isIntS32Immediate, hmod, toInt32, hmod32, if_true]
  · split <;> omega

/-- Witness of C12 at `v = 2^32 - 1`, the immediate `-1`. -/
theorem isIntS32Immediate_Constant_i32_witness :
    isIntS32Immediate (.Constant .i32 4294967295) = some (-1) := by
  simpa using (isIntS32Immediate_Constant_i32 4294967295 (by decide)).1

/-! ## Register+immediate selection: constant and fallback forms -/

/-- The register+immediate selector on a node that is not additive: the constant
address form when the node carries a constant, the `[r+0]` form otherwise. -/
theorem SelectAddrRegImm_not_additive (TM : OR1KTargetMachine) (Op N : SDNode)
    (hA : N.getOpcode ≠ .ADD) (hO : N.getOpcode ≠ .OR) :
    SelectAddrRegImm TM Op N =
      match N.dyn_cast_ConstantSDNode with
      | some Z =>
        some ⟨getTargetConstant (toUInt32 Z) N.getValueType, getRegister R0 N.getValueType⟩
      | none => some (SelectAddrRegImm.fallback TM N) := by
  have h := SelectAddrRegReg_not_additive Op N hA hO
  unfold SelectAddrRegImm
  simp only [h]
  cases N <;> simp_all [SDNode.getOpcode]

/-- C13 at the failing input: on the bare Constant of width 64 with value `2^32 + 42`
`SelectAddrRegImm` succeeds with `Base` = `R0` and the displacement `42`, the value
wrapped to 32 bits, not the node's value; the same constant as second operand of an
`Add` is refused by `isIntS32Immediate`. -/
theorem SelectAddrRegImm_Constant_wraps :
    SelectAddrRegImm ⟨.Static, .i32⟩ (.Other 0 .i64 0) (.Constant .i64 4294967338) =
        some ⟨.TargetConstant .i64 42, .Register .i64 R0⟩ ∧
      SelectAddrRegImm ⟨.Static, .i32⟩ (.Other 0 .i64 0) (.Constant .i64 4294967338) ≠
        some ⟨.TargetConstant .i64 4294967338, .Register .i64 R0⟩ ∧
      isIntS32Immediate (.Constant .i64 4294967338) = none := by
  refine ⟨?_, ?_, ?_⟩ <;> decide

/-- The constant address form keeps a value below `2^32` exactly: on such a bare
Constant node `SelectAddrRegImm` succeeds with `Base` = the Zero Register `R0` and
`Disp` = the target immediate holding the node's value. -/
theorem SelectAddrRegImm_Constant (TM : OR1KTargetMachine) (Op : SDNode) (VT : EVT)
    (Val : Nat) (hW : Val < 2 ^ VT.getSizeInBits) (h32 : Val < 2 ^ 32) :
    SelectAddrRegImm TM Op (.Constant VT Val) =
      some ⟨.TargetConstant VT Val, .Register VT R0⟩ := by
  have h1 : Val % 2 ^ 64 = Val := Nat.mod_eq_of_lt (by omega)
  have h2 : Val % 2 ^ 32 = Val := Nat.mod_eq_of_lt h32
  have h3 : Val % 2 ^ VT.getSizeInBits = Val := Nat.mod_eq_of_lt hW
  rw [SelectAddrRegImm_not_additive TM Op _ (by simp [SDNode.getOpcode])
    (by simp [SDNode.getOpcode])]
  simp only [SDNode.dyn_cast_ConstantSDNode, toUInt32, getTargetConstant, getRegister,
    SDNode.getValueType, h1, h2, h3]

/-- The constant address form at `Constant(42)` of width 32: displacement 42. -/
theorem SelectAddrRegImm_Constant_witness :
    SelectAddrRegImm ⟨.Static, .i32⟩ (.Other 0 .i32 0) (.Constant .i32 42) =
      some ⟨.TargetConstant .i32 42, .Register .i32 R0⟩ :=
  SelectAddrRegImm_Constant ⟨.Static, .i32⟩ (.Other 0 .i32 0) .i32 42 (by decide)
    (by decide)

/-- C14 fails as stated: the target immediate `TargetConstant(7)` is neither additive
nor a Constant, and `SelectAddrRegImm` does not return `Disp` = 0 and `Base` = the
node on it; it takes the constant address form, `Disp` = 7 and `Base` = `R0`. -/
theorem SelectAddrRegImm_TargetConstant_not_fallback :
    SelectAddrRegImm ⟨.Static, .i32⟩ (.Other 0 .i32 0) (.TargetConstant .i32 7) =
        some ⟨.TargetConstant .i32 7, .Register .i32 R0⟩ ∧
      SelectAddrRegImm ⟨.Static, .i32⟩ (.Other 0 .i32 0) (.TargetConstant .i32 7) ≠
        some ⟨.TargetConstant .i32 0, .TargetConstant .i32 7⟩ := by
  refine ⟨?_, ?_⟩ <;> decide

/-- C14, amended: on every node that is neither additive nor a Constant nor a target
immediate (`TargetConstant`), `SelectAddrRegImm` succeeds with `Disp` = the target
immediate 0 (of the pointer type) and `Base` = the node itself, except that for
`StackSlotRef(k)` the `Base` is the target frame-index operand for `k`, of the type of
the node. -/
theorem SelectAddrRegImm_fallback (TM : OR1KTargetMachine) (Op N : SDNode)
    (hA : N.getOpcode ≠ .ADD) (hO : N.getOpcode ≠ .OR) (hC : N.getOpcode ≠ .Constant)
    (hT : N.getOpcode ≠ .TargetConstant) :
    SelectAddrRegImm TM Op N =
      some ⟨.TargetConstant TM.PointerTy 0,
        match N with
        | .FrameIndex VT k => .TargetFrameIndex VT k
        | _ => N⟩ := by
  rw [SelectAddrRegImm_not_additive TM Op N hA hO]
  cases N with
  | Constant VT Val => exact absurd rfl hC
  | TargetConstant VT Val => exact absurd rfl hT
  | _ =>
    simp [SDNode.dyn_cast_ConstantSDNode, SelectAddrRegImm.fallback,
      SDNode.dyn_cast_FrameIndexSDNode, getTargetConstant, getTargetFrameIndex,
      SDNode.getValueType]

/-- Witness of the amended C14 at `StackSlotRef(5)`. -/
theorem SelectAddrRegImm_fallback_witness :
    SelectAddrRegImm ⟨.Static, .i32⟩ (.Other 0 .i32 0) (.FrameIndex .i32 5) =
      some ⟨.TargetConstant .i32 0, .TargetFrameIndex .i32 5⟩ :=
  SelectAddrRegImm_fallback ⟨.Static, .i32⟩ (.Other 0 .i32 0) (.FrameIndex .i32 5)
    (by decide) (by decide) (by decide) (by decide)

/-! ## Custom node lowering -/

/-- C15: on every Stack Slot Reference node with frame index `k` that is not
machine-form, `Select` produces an `ADDI` of the node's own type whose operands are
the target frame-index operand for `k` and the target immediate 0, whatever the
Pattern Matcher is; the node is rewritten in place when it has exactly one use, and
otherwise a fresh machine node is made and the node is left as it was. -/
theorem Select_FrameIndex (CurDAG : SelectionDAG) (Matcher : SDNode → Option SDNode)
    (VT : EVT) (k : Int) (hM : CurDAG.isMachineOpcode (.FrameIndex VT k) = false) :
    Select CurDAG Matcher (.FrameIndex VT k) =
      if CurDAG.hasOneUse (.FrameIndex VT k) then
        .ok (.SelectNodeTo (.FrameIndex VT k) .ADDI VT (.TargetFrameIndex VT k)
          (.TargetConstant .i32 0))
      else
        .ok (.getMachineNode .ADDI VT (.TargetFrameIndex VT k) (.TargetConstant .i32 0)) := by
  simp [Select, hM, getTargetConstant, getTargetFrameIndex, SDNode.getValueType]

/-- Witness of C15 at `StackSlotRef(5)` with a Pattern Matcher that matches nothing:
a fresh `ADDI` when the node does not have exactly one use, the node rewritten in
place when it has. -/
theorem Select_FrameIndex_witness :
    Select ⟨fun _ => false, fun _ => false⟩ (fun _ => none) (.FrameIndex .i32 5) =
        .ok (.getMachineNode .ADDI .i32 (.TargetFrameIndex .i32 5)
          (.TargetConstant .i32 0)) ∧
      Select ⟨fun _ => false, fun _ => true⟩ (fun _ => none) (.FrameIndex .i32 5) =
        .ok (.SelectNodeTo (.FrameIndex .i32 5) .ADDI .i32 (.TargetFrameIndex .i32 5)
          (.TargetConstant .i32 0)) :=
  ⟨by simpa using
      Select_FrameIndex ⟨fun _ => false, fun _ => false⟩ (fun _ => none) .i32 5 rfl,
    by simpa using
      Select_FrameIndex ⟨fun _ => false, fun _ => true⟩ (fun _ => none) .i32 5 rfl⟩

/-- C16: on every node that is neither machine-form nor a Stack Slot Reference,
`Select` returns what `SelectCode` returns; when the Pattern Matcher reports no match
for the node, that is the fatal failure naming the node, not a result. -/
theorem Select_delegates (CurDAG : SelectionDAG) (Matcher : SDNode → Option SDNode)
    (Node : SDNode) (hM : CurDAG.isMachineOpcode Node = false)
    (hF : Node.getOpcode ≠ .FrameIndex) :
    Select CurDAG Matcher Node = SelectCode Matcher Node ∧
      (Matcher Node = none → Select CurDAG Matcher Node = .error Node) ∧
      (∀ Res, Matcher Node = some Res → Select CurDAG Matcher Node = .ok (.ResNode Res)) := by
  have h : Select CurDAG Matcher Node = SelectCode Matcher Node := by
    cases Node with
    | FrameIndex VT k => exact absurd rfl hF
    | _ => simp [Select, hM]
  refine ⟨h, ?_, ?_⟩
  · intro hN
    rw [h]
    simp [SelectCode, hN]
  · intro Res hN
    rw [h]
    simp [SelectCode, hN]

/-- Witness of C16 at `Add(r3, r4)` with a Pattern Matcher that matches nothing. -/
theorem Select_delegates_witness :
    Select ⟨fun _ => false, fun _ => true⟩ (fun _ => none)
        (.ADD .i32 (.Register .i32 3) (.Register .i32 4)) =
      .error (.ADD .i32 (.Register .i32 3) (.Register .i32 4)) :=
  (Select_delegates ⟨fun _ => false, fun _ => true⟩ (fun _ => none)
    (.ADD .i32 (.Register .i32 3) (.Register .i32 4)) rfl (by decide)).2.1 rfl

/-- C17: on every node that is already machine-form, `Select` returns `NULL`: no
replacement, no new node, and the Pattern Matcher is not consulted, whatever the kind
of the node and whatever the Pattern Matcher would answer. -/
theorem Select_machine_node (CurDAG : SelectionDAG) (Matcher : SDNode → Option SDNode)
    (Node : SDNode) (hM : CurDAG.isMachineOpcode Node = true) :
    Select CurDAG Matcher Node = .ok .NULL := by
  simp [Select, hM]

/-- Witness of C17 at a machine-form node for which the Pattern Matcher has no match. -/
theorem Select_machine_node_witness :
    Select ⟨fun _ => true, fun _ => true⟩ (fun _ => none) (.Other 40000 .i32 1) =
      .ok .NULL :=
  Select_machine_node ⟨fun _ => true, fun _ => true⟩ (fun _ => none) (.Other 40000 .i32 1)
    rfl

/-! ## Invariants of the address selectors -/

/-- C18: when `SelectAddrRegReg` succeeds on a node, the node is `Add` or `Or` and
neither of its operands is a Jump Table reference; on every node of any other kind,
and on every additive node with a Jump Table operand, it reports no match. -/
theorem SelectAddrRegReg_additive_no_jump_table (Op N : SDNode) :
    (∀ r, SelectAddrRegReg Op N = some r →
      (N = .ADD N.getValueType r.Index r.Base ∨ N = .OR N.getValueType r.Index r.Base) ∧
        r.Index.getOpcode ≠ .TargetJumpTable ∧ r.Base.getOpcode ≠ .TargetJumpTable) ∧
    (N.getOpcode ≠ .ADD → N.getOpcode ≠ .OR → SelectAddrRegReg Op N = none) ∧
    (∀ VT A B, N = .ADD VT A B ∨ N = .OR VT A B →
      A.getOpcode = .TargetJumpTable ∨ B.getOpcode = .TargetJumpTable →
      SelectAddrRegReg Op N = none) := by
  refine ⟨?_, SelectAddrRegReg_not_additive Op N, ?_⟩
  · intro r h
    cases N with
    | ADD VT A B =>
      rw [SelectAddrRegReg_ADD] at h
      split at h
      · simp at h
      · split at h
        · simp at h
        · cases h
          simp_all [SDNode.getValueType]
    | OR VT A B =>
      rw [SelectAddrRegReg_OR] at h
      split at h
      · simp at h
      · split at h
        · simp at h
        · cases h
          simp_all [SDNode.getValueType]
    | _ => simp [SelectAddrRegReg, SDNode.getOpcode] at h
  · intro VT A B hN hJ
    rcases hN with hN | hN
    · rw [hN, SelectAddrRegReg_ADD]
      simp [hJ]
    · rw [hN, SelectAddrRegReg_OR]
      simp [hJ]

/-- The base of the `[r+0]` form is never an unconverted Stack Slot Reference. -/
theorem SelectAddrRegImm_fallback_Base (TM : OR1KTargetMachine) (N : SDNode) :
    (SelectAddrRegImm.fallback TM N).Base.getOpcode ≠ .FrameIndex := by
  cases N <;>
    simp [SelectAddrRegImm.fallback, SDNode.dyn_cast_FrameIndexSDNode, getTargetFrameIndex,
      SDNode.getOpcode]

/-- The base chosen by the statements of `SelectAddr` after the relocation-model test
is never an unconverted Stack Slot Reference, on a node that is not one itself. -/
theorem SelectAddr_rest_Base (N : SDNode) (a : Addr) (hN : N.getOpcode ≠ .FrameIndex)
    (h : SelectAddr.rest N = some a) : a.Base.getOpcode ≠ .FrameIndex := by
  unfold SelectAddr.rest at h
  cases hr : SelectAddr.addRule N with
  | none =>
    rw [hr] at h
    cases h
    exact hN
  | some r =>
    rw [hr] at h
    cases h
    cases N with
    | ADD VT A B =>
      unfold SelectAddr.addRule at hr
      cases hB : B.dyn_cast_ConstantSDNode with
      | none => simp [hB] at hr
      | some Z =>
        simp only [hB] at hr
        split at hr
        · cases hr
          cases A <;>
            simp [SDNode.dyn_cast_FrameIndexSDNode, getTargetFrameIndex, SDNode.getOpcode]
        · simp at hr
    | _ => simp [SelectAddr.addRule] at hr

/-- C19: whenever `SelectAddrRegImm` or `SelectAddr` succeeds, under either relocation
model, the `Base` it returns is not an unconverted Stack Slot Reference node. -/
theorem Base_never_FrameIndex (TM : OR1KTargetMachine) (Op N : SDNode) :
    (∀ r, SelectAddrRegImm TM Op N = some r → r.Base.getOpcode ≠ .FrameIndex) ∧
    (∀ a, SelectAddr TM Op N = some a → a.Base.getOpcode ≠ .FrameIndex) := by
  constructor
  · intro r h
    unfold SelectAddrRegImm at h
    split at h
    · simp at h
    · cases N with
      | ADD VT A B =>
        cases hB : isIntS32Immediate B with
        | none =>
          simp only [hB] at h
          cases h
          exact SelectAddrRegImm_fallback_Base TM _
        | some c =>
          simp only [hB] at h
          cases A <;> simp [SDNode.dyn_cast_FrameIndexSDNode, getTargetFrameIndex] at h <;>
            (cases h; simp [SDNode.getOpcode])
      | OR VT A B =>
        cases hB : isIntS32Immediate B with
        | none =>
          simp only [hB] at h
          cases h
          exact SelectAddrRegImm_fallback_Base TM _
        | some c =>
          simp only [hB] at h
          cases A <;> simp [SDNode.dyn_cast_FrameIndexSDNode, getTargetFrameIndex] at h <;>
            (cases h; simp [SDNode.getOpcode])
      | Constant VT Val =>
        simp [SDNode.dyn_cast_ConstantSDNode, getRegister] at h
        cases h
        simp [SDNode.getOpcode]
      | TargetConstant VT Val =>
        simp [SDNode.dyn_cast_ConstantSDNode, getRegister] at h
        cases h
        simp [SDNode.getOpcode]
      | _ =>
        simp [SDNode.dyn_cast_ConstantSDNode] at h
        cases h
        exact SelectAddrRegImm_fallback_Base TM _
  · intro a h
    unfold SelectAddr at h
    cases hF : N.dyn_cast_FrameIndexSDNode with
    | some FI =>
      simp only [hF] at h
      cases h
      simp [getTargetFrameIndex, SDNode.getOpcode]
    | none =>
      have hN : N.getOpcode ≠ .FrameIndex := by
        cases N <;> simp_all [SDNode.dyn_cast_FrameIndexSDNode, SDNode.getOpcode]
      simp only [hF] at h
      split at h
      · split at h
        · cases h
          simp [getRegister, SDNode.getOpcode]
        · exact SelectAddr_rest_Base N a hN h
      · split at h
        · simp at h
        · exact SelectAddr_rest_Base N a hN h

/-! ## Agreement of the two reg+imm resolvers -/

/-- A Constant with a value that fits 16 unsigned bits is a signed 32-bit immediate of
that value, whatever its declared width. -/
theorem isIntS32Immediate_of_le_65535 (CVT : EVT) (c : Nat) (hc : c ≤ 65535) :
    isIntS32Immediate (.Constant CVT c) = some (c : Int) := by
  have h64 : c % 2 ^ 64 = c := Nat.mod_eq_of_lt (by omega)
  have h32 : c % 2 ^ 32 = c := Nat.mod_eq_of_lt (by omega)
  have hlt : c < 2 ^ 31 := by omega
  have hlt2 : c < 2 ^ 63 := by omega
  have t32 : toInt32 c = (c : Int) := by
    simp only [toInt32, h32, hlt, if_true]
  have t64 : toInt64 c = (c : Int) := by
    simp only [toInt64, h64, hlt2, if_true]
  simp only [isIntS32Immediate, h64, t32, t64, if_true, ite_self]

/-- C20: for every relocation model and every node `Add(X, C)` of type `i32` where `C`
is a Constant, of width 32 or 64 or any other, with value `0 ≤ c ≤ 65535`, `SelectAddr`
and `SelectAddrRegImm` both succeed and return the same pair: the target immediate `c`
of type `i32`, and as `Base` the operand `X`, or the `i32` target frame-index operand
for `k` when `X` is a frame-index node with index `k`. -/
theorem SelectAddr_agrees_with_SelectAddrRegImm (TM : OR1KTargetMachine) (Op : SDNode)
    (CVT : EVT) (X : SDNode) (c : Nat) (hc : c ≤ 65535) :
    SelectAddrRegImm TM Op (.ADD .i32 X (.Constant CVT c)) =
        some ⟨.TargetConstant .i32 c,
          match X with
          | .FrameIndex _ k => .TargetFrameIndex .i32 k
          | .TargetFrameIndex _ k => .TargetFrameIndex .i32 k
          | _ => X⟩ ∧
      SelectAddr TM Op (.ADD .i32 X (.Constant CVT c)) =
        some ⟨.TargetConstant .i32 c,
          match X with
          | .FrameIndex _ k => .TargetFrameIndex .i32 k
          | .TargetFrameIndex _ k => .TargetFrameIndex .i32 k
          | _ => X⟩ := by
  have hImm := isIntS32Immediate_of_le_65535 CVT c hc
  have h64 : c % 2 ^ 64 = c := Nat.mod_eq_of_lt (by omega)
  have h32 : c % 2 ^ 32 = c := Nat.mod_eq_of_lt (by omega)
  have h16 : c < 2 ^ 16 := by omega
  have hRR : SelectAddrRegReg Op (.ADD .i32 X (.Constant CVT c)) = none := by
    simp [SelectAddrRegReg_ADD, hImm]
  have hDisp : getTargetConstant (toUInt64 (c : Int)) .i32 = .TargetConstant .i32 c := by
    rw [getTargetConstant_toUInt64]
    have hT : ((c : Int) % 2 ^ 32).toNat = c := by omega
    rw [hT]
  constructor
  · unfold SelectAddrRegImm
    simp only [hRR, hImm, hDisp]
    cases X <;>
      simp [SDNode.dyn_cast_FrameIndexSDNode, getTargetFrameIndex, SDNode.getValueType]
  · rw [SelectAddr_eq_rest TM Op _ (by simp [SDNode.dyn_cast_FrameIndexSDNode])
      (by simp [SDNode.getOpcode]) (by simp [SDNode.getOpcode])
      (by simp [SDNode.getOpcode]) (by simp [SDNode.getOpcode])]
    unfold SelectAddr.rest SelectAddr.addRule
    simp only [SDNode.dyn_cast_ConstantSDNode, h64, isUInt16, h16, decide_True, if_true,
      getTargetConstant, EVT.getSizeInBits, h32]
    cases X <;> simp [SDNode.dyn_cast_FrameIndexSDNode, getTargetFrameIndex]

/-- Witness of C20 at `Add(StackSlotRef(2), Constant(65535))` with the constant of
width 64, under the position-independent model. -/
theorem SelectAddr_agrees_with_SelectAddrRegImm_witness :
    SelectAddrRegImm ⟨.PIC_, .i32⟩ (.Other 0 .i32 0)
        (.ADD .i32 (.FrameIndex .i32 2) (.Constant .i64 65535)) =
        some ⟨.TargetConstant .i32 65535, .TargetFrameIndex .i32 2⟩ ∧
      SelectAddr ⟨.PIC_, .i32⟩ (.Other 0 .i32 0)
        (.ADD .i32 (.FrameIndex .i32 2) (.Constant .i64 65535)) =
        some ⟨.TargetConstant .i32 65535, .TargetFrameIndex .i32 2⟩ :=
  SelectAddr_agrees_with_SelectAddrRegImm ⟨.PIC_, .i32⟩ (.Other 0 .i32 0) .i64
    (.FrameIndex .i32 2) 65535 (by decide)

end OR1K
